import Mathlib

/-!
# First-person camera controller (camera.h)

A shallow embedding of `InitCustomCamera` and `UpdateCustomCamera`.

Modelling conventions.

* C `float` values are read as elements of an arbitrary linearly ordered field `R`
  with exact arithmetic (no rounding, no NaN, no infinities).  Every definition is
  computable for a computable `R` such as `ℚ`.
* `sinf` and `cosf` come from the C maths library, not from this repository, so the
  embedding takes them as parameters `sinf cosf : R → R`.  Properties that depend on
  trigonometric identities state the identity they use as a hypothesis and are
  instantiated at `Real.sin`, `Real.cos`.
* The file-level statics (`cameraAngle`, `cameraTargetDistance`, `playerEyesPosition`)
  and the function-level static `previousMousePosition` are fields of an explicit
  state, next to the camera the pointer argument refers to.
* The host queries `GetMousePosition`, `GetMouseWheelMove` and `IsKeyDown` are one
  input sample per call.
-/

namespace CustomCamera

/-! ## Types -/

/-- Two floats, as in the host library. -/
structure Vector2 (R : Type) where
  x : R
  y : R

/-- Three floats, as in the host library. -/
structure Vector3 (R : Type) where
  x : R
  y : R
  z : R

/-- The host library's camera record: the five fields that `InitCustomCamera` writes. -/
structure Camera (R : Type) where
  position : Vector3 R
  target : Vector3 R
  up : Vector3 R
  fovy : R
  type : Int

/-- Camera move modes, `MOVE_FRONT = 0` to `MOVE_DOWN = 5`. -/
inductive CameraMove where
  | MOVE_FRONT
  | MOVE_BACK
  | MOVE_RIGHT
  | MOVE_LEFT
  | MOVE_UP
  | MOVE_DOWN
  deriving DecidableEq, Repr

/-- The camera the pointer argument refers to, together with the static variables. -/
structure State (R : Type) where
  camera : Camera R
  cameraAngle : Vector2 R
  cameraTargetDistance : R
  playerEyesPosition : R
  previousMousePosition : Vector2 R

/-- One sample of the host's input queries. -/
structure Sample (R : Type) where
  mousePosition : Vector2 R
  mouseWheelMove : Int
  IsKeyDown : Int → Bool

/-! ## Constants -/

section Model

variable {R : Type} [LinearOrderedField R]

/-- `#define PI 3.14159265358979323846` -/
def PI : R := 3.14159265358979323846

/-- `#define DEG2RAD (PI/180.0f)` -/
def DEG2RAD : R := PI / 180.0

/-- `#define CAMERA_MOUSE_MOVE_SENSITIVITY 0.003f` -/
def CAMERA_MOUSE_MOVE_SENSITIVITY : R := 0.003

/-- `#define CAMERA_FIRST_PERSON_FOCUS_DISTANCE 25.0f` -/
def CAMERA_FIRST_PERSON_FOCUS_DISTANCE : R := 25.0

/-- `#define CAMERA_FIRST_PERSON_MIN_CLAMP 85.0f` -/
def CAMERA_FIRST_PERSON_MIN_CLAMP : R := 85.0

/-- `#define CAMERA_FIRST_PERSON_MAX_CLAMP -85.0f` -/
def CAMERA_FIRST_PERSON_MAX_CLAMP : R := -85.0

/-- `#define PLAYER_MOVEMENT_SENSITIVITY 20.0f` -/
def PLAYER_MOVEMENT_SENSITIVITY : R := 20.0

/-- The host library's enumerator for a perspective projection (its first enumerator). -/
def CAMERA_PERSPECTIVE : Int := 0

/-- `static int cameraMoveControl[6] = { 'W', 'S', 'D', 'A', 'E', 'Q' };` -/
def cameraMoveControl : CameraMove → Int
  | .MOVE_FRONT => 87
  | .MOVE_BACK => 83
  | .MOVE_RIGHT => 68
  | .MOVE_LEFT => 65
  | .MOVE_UP => 69
  | .MOVE_DOWN => 81

/-- A C `bool` used as a float operand: `true` is `1`, `false` is `0`. -/
def boolToFloat (b : Bool) : R := if b then 1 else 0

/-- The initial values of the statics, around a camera supplied by the caller:
`cameraAngle = { 0.0f, 0.0f }`, `cameraTargetDistance = 0.0f`,
`playerEyesPosition = 1.85f`, `previousMousePosition = { 0.0f, 0.0f }`. -/
def initialState (camera : Camera R) : State R :=
  { camera := camera
    cameraAngle := ⟨0.0, 0.0⟩
    cameraTargetDistance := 0.0
    playerEyesPosition := 1.85
    previousMousePosition := ⟨0.0, 0.0⟩ }

/-! ## Operations -/

/-- `InitCustomCamera`: writes the five camera fields.  The calls `SetCameraMode` and
`DisableCursor` act on the host only and touch none of the modelled state. -/
def InitCustomCamera (s : State R) : State R :=
  { s with
    camera :=
      { position := ⟨10.0, 10.0, 10.0⟩
        target := ⟨0.0, 0.0, 0.0⟩
        up := ⟨0.0, 1.0, 0.0⟩
        fovy := 45.0
        type := CAMERA_PERSPECTIVE } }

/-- The `direction[6]` array of `UpdateCustomCamera`: the key state of each bound key. -/
def direction (h : Sample R) (m : CameraMove) : Bool :=
  h.IsKeyDown (cameraMoveControl m)

/-- The three addends of the `camera->position.x +=`, `.y +=`, `.z +=` statements,
computed from the stored `cameraAngle`. -/
def translation (sinf cosf : R → R) (angle : Vector2 R) (d : CameraMove → Bool) : Vector3 R :=
  { x := (sinf angle.x * boolToFloat (d .MOVE_BACK) -
          sinf angle.x * boolToFloat (d .MOVE_FRONT) -
          cosf angle.x * boolToFloat (d .MOVE_LEFT) +
          cosf angle.x * boolToFloat (d .MOVE_RIGHT)) / PLAYER_MOVEMENT_SENSITIVITY
    y := (sinf angle.y * boolToFloat (d .MOVE_FRONT) -
          sinf angle.y * boolToFloat (d .MOVE_BACK) +
          1.0 * boolToFloat (d .MOVE_UP) - 1.0 * boolToFloat (d .MOVE_DOWN)) /
            PLAYER_MOVEMENT_SENSITIVITY
    z := (cosf angle.x * boolToFloat (d .MOVE_BACK) -
          cosf angle.x * boolToFloat (d .MOVE_FRONT) +
          sinf angle.x * boolToFloat (d .MOVE_LEFT) -
          sinf angle.x * boolToFloat (d .MOVE_RIGHT)) / PLAYER_MOVEMENT_SENSITIVITY }

/-- The angle clamp: the `if ... else if ...` on `cameraAngle.y`. -/
def clampPitch (y : R) : R :=
  if y > CAMERA_FIRST_PERSON_MIN_CLAMP * DEG2RAD then CAMERA_FIRST_PERSON_MIN_CLAMP * DEG2RAD
  else if y < CAMERA_FIRST_PERSON_MAX_CLAMP * DEG2RAD then CAMERA_FIRST_PERSON_MAX_CLAMP * DEG2RAD
  else y

/-- `UpdateCustomCamera`, statement by statement.  The locals `mouseWheelMove` and
`isMoving` are computed and never read, as in the source. -/
def UpdateCustomCamera (sinf cosf : R → R) (s : State R) (h : Sample R) : State R :=
  let mousePosition := h.mousePosition
  let _mouseWheelMove := h.mouseWheelMove
  let d := direction h
  -- mouse movement detection
  let mousePositionDelta : Vector2 R :=
    ⟨mousePosition.x - s.previousMousePosition.x, mousePosition.y - s.previousMousePosition.y⟩
  let previousMousePosition := mousePosition
  -- position += ..., from the stored angles
  let t := translation sinf cosf s.cameraAngle d
  let position : Vector3 R :=
    ⟨s.camera.position.x + t.x, s.camera.position.y + t.y, s.camera.position.z + t.z⟩
  let _isMoving :=
    [CameraMove.MOVE_FRONT, .MOVE_BACK, .MOVE_RIGHT, .MOVE_LEFT, .MOVE_UP, .MOVE_DOWN].any d
  -- camera orientation calculation
  let angleX := s.cameraAngle.x + mousePositionDelta.x * -CAMERA_MOUSE_MOVE_SENSITIVITY
  let angleY := s.cameraAngle.y + mousePositionDelta.y * -CAMERA_MOUSE_MOVE_SENSITIVITY
  -- angle clamp
  let angleY := clampPitch angleY
  -- camera is always looking at player
  let target : Vector3 R :=
    ⟨position.x - sinf angleX * CAMERA_FIRST_PERSON_FOCUS_DISTANCE,
     position.y + sinf angleY * CAMERA_FIRST_PERSON_FOCUS_DISTANCE,
     position.z - cosf angleX * CAMERA_FIRST_PERSON_FOCUS_DISTANCE⟩
  -- camera position update
  let position : Vector3 R := ⟨position.x, s.playerEyesPosition, position.z⟩
  { s with
    camera := { s.camera with position := position, target := target }
    cameraAngle := ⟨angleX, angleY⟩
    previousMousePosition := previousMousePosition }

/-- One call of `UpdateCustomCamera` per input sample, in order. -/
def runUpdates (sinf cosf : R → R) (s : State R) : List (Sample R) → State R
  | [] => s
  | h :: hs => runUpdates sinf cosf (UpdateCustomCamera sinf cosf s h) hs

/-! ## The update as a sequence of steps

The five steps the specification lists for the update, each as a function on the state, so
that the order of the steps can be compared with the order of the statements of
`UpdateCustomCamera`.  The steps use the same formulas as the code; only their order is in
question. -/

/-- The pointer delta against the previous sample. -/
def pointerDelta (s : State R) (h : Sample R) : Vector2 R :=
  ⟨h.mousePosition.x - s.previousMousePosition.x, h.mousePosition.y - s.previousMousePosition.y⟩

/-- The previous pointer position is overwritten with the current one. -/
def storePointer (h : Sample R) (s : State R) : State R :=
  { s with previousMousePosition := h.mousePosition }

/-- Step 1: accumulate yaw and pitch from the pointer delta, scaled by the mouse
sensitivity with inverted sign. -/
def stepAccumulate (delta : Vector2 R) (s : State R) : State R :=
  { s with
    cameraAngle :=
      ⟨s.cameraAngle.x + delta.x * -CAMERA_MOUSE_MOVE_SENSITIVITY,
       s.cameraAngle.y + delta.y * -CAMERA_MOUSE_MOVE_SENSITIVITY⟩ }

/-- Step 2: clamp the pitch to the fixed bound. -/
def stepClamp (s : State R) : State R :=
  { s with cameraAngle := ⟨s.cameraAngle.x, clampPitch s.cameraAngle.y⟩ }

/-- Step 3: compute the translation from the sine and cosine of the current angles and add
it to the position. -/
def stepTranslate (sinf cosf : R → R) (d : CameraMove → Bool) (s : State R) : State R :=
  { s with
    camera :=
      { s.camera with
        position :=
          ⟨s.camera.position.x + (translation sinf cosf s.cameraAngle d).x,
           s.camera.position.y + (translation sinf cosf s.cameraAngle d).y,
           s.camera.position.z + (translation sinf cosf s.cameraAngle d).z⟩ } }

/-- Step 4: recompute the target as the position offset by the focus distance along the
direction of the current angles. -/
def stepTarget (sinf cosf : R → R) (s : State R) : State R :=
  { s with
    camera :=
      { s.camera with
        target :=
          ⟨s.camera.position.x - sinf s.cameraAngle.x * CAMERA_FIRST_PERSON_FOCUS_DISTANCE,
           s.camera.position.y + sinf s.cameraAngle.y * CAMERA_FIRST_PERSON_FOCUS_DISTANCE,
           s.camera.position.z - cosf s.cameraAngle.x * CAMERA_FIRST_PERSON_FOCUS_DISTANCE⟩ } }

/-- Step 5: force `position.y` to the eye height. -/
def stepEyeHeight (s : State R) : State R :=
  { s with
    camera :=
      { s.camera with
        position := ⟨s.camera.position.x, s.playerEyesPosition, s.camera.position.z⟩ } }

/-- The update in the order the specification lists its steps: 1, 2, 3, 4, 5. -/
def updateSpecOrder (sinf cosf : R → R) (s : State R) (h : Sample R) : State R :=
  stepEyeHeight (stepTarget sinf cosf (stepTranslate sinf cosf (direction h)
    (stepClamp (stepAccumulate (pointerDelta s h) (storePointer h s)))))

/-- The update with the translation first: steps 3, 1, 2, 4, 5. -/
def updateTranslateFirst (sinf cosf : R → R) (s : State R) (h : Sample R) : State R :=
  stepEyeHeight (stepTarget sinf cosf (stepClamp (stepAccumulate (pointerDelta s h)
    (stepTranslate sinf cosf (direction h) (storePointer h s)))))

/-! ## Concrete inputs -/

/-- A camera at a given position, with the other fields as `InitCustomCamera` sets them. -/
def cameraAt (position : Vector3 R) : Camera R :=
  { position := position
    target := ⟨0.0, 0.0, 0.0⟩
    up := ⟨0.0, 1.0, 0.0⟩
    fovy := 45.0
    type := CAMERA_PERSPECTIVE }

/-- The state of a program that has called `InitCustomCamera` and nothing else:
position `(10, 10, 10)`, yaw and pitch `0`, eye height `1.85`. -/
def afterInit : State R :=
  InitCustomCamera (initialState (cameraAt ⟨0.0, 0.0, 0.0⟩))

/-- The initial statics around a camera standing at eye height on the origin:
position `(0, 1.85, 0)`, yaw and pitch `0`. -/
def atOrigin : State R :=
  initialState (cameraAt ⟨0.0, 1.85, 0.0⟩)

/-- The input sample with the pointer at `mouse` and exactly the keys of `keys` down. -/
def keysHeld (mouse : Vector2 R) (keys : List Int) : Sample R :=
  { mousePosition := mouse
    mouseWheelMove := 0
    IsKeyDown := fun k => keys.contains k }

/-! ## Basic facts about the embedding -/

@[simp]
theorem boolToFloat_true : (boolToFloat true : R) = 1 := rfl

@[simp]
theorem boolToFloat_false : (boolToFloat false : R) = 0 := rfl

theorem PI_pos : (0 : R) < PI := by
  unfold PI
  norm_num

theorem min_clamp_eq : (CAMERA_FIRST_PERSON_MIN_CLAMP * DEG2RAD : R) = 85 * PI / 180 := by
  unfold CAMERA_FIRST_PERSON_MIN_CLAMP DEG2RAD
  norm_num
  ring

theorem max_clamp_eq : (CAMERA_FIRST_PERSON_MAX_CLAMP * DEG2RAD : R) = -(85 * PI / 180) := by
  unfold CAMERA_FIRST_PERSON_MAX_CLAMP DEG2RAD
  norm_num
  ring

theorem bound_pos : (0 : R) < 85 * PI / 180 := by
  have h := PI_pos (R := R)
  positivity

theorem clampPitch_eq (y : R) :
    clampPitch y =
      if y > 85 * PI / 180 then 85 * PI / 180
      else if y < -(85 * PI / 180) then -(85 * PI / 180) else y := by
  unfold clampPitch
  rw [min_clamp_eq, max_clamp_eq]

theorem clampPitch_lower (y : R) : -(85 * PI / 180) ≤ clampPitch y := by
  have hb := bound_pos (R := R)
  rw [clampPitch_eq]
  split_ifs with h1 h2
  · linarith
  · exact le_refl _
  · exact not_lt.mp h2

theorem clampPitch_upper (y : R) : clampPitch y ≤ 85 * PI / 180 := by
  have hb := bound_pos (R := R)
  rw [clampPitch_eq]
  split_ifs with h1 h2
  · exact le_refl _
  · linarith
  · exact not_lt.mp h1

theorem clampPitch_of_mem (y : R) (hlo : -(85 * PI / 180) ≤ y) (hhi : y ≤ 85 * PI / 180) :
    clampPitch y = y := by
  rw [clampPitch_eq, if_neg (not_lt.mpr hhi), if_neg (not_lt.mpr hlo)]

@[simp]
theorem clampPitch_zero : clampPitch (0 : R) = 0 :=
  clampPitch_of_mem 0 (neg_nonpos.mpr bound_pos.le) bound_pos.le

theorem update_pitch (sinf cosf : R → R) (s : State R) (h : Sample R) :
    (UpdateCustomCamera sinf cosf s h).cameraAngle.y =
      clampPitch (s.cameraAngle.y +
        (h.mousePosition.y - s.previousMousePosition.y) * -CAMERA_MOUSE_MOVE_SENSITIVITY) :=
  rfl

theorem update_yaw (sinf cosf : R → R) (s : State R) (h : Sample R) :
    (UpdateCustomCamera sinf cosf s h).cameraAngle.x =
      s.cameraAngle.x +
        (h.mousePosition.x - s.previousMousePosition.x) * -CAMERA_MOUSE_MOVE_SENSITIVITY :=
  rfl

theorem update_eyes (sinf cosf : R → R) (s : State R) (h : Sample R) :
    (UpdateCustomCamera sinf cosf s h).playerEyesPosition = s.playerEyesPosition :=
  rfl

theorem update_position_y (sinf cosf : R → R) (s : State R) (h : Sample R) :
    (UpdateCustomCamera sinf cosf s h).camera.position.y = s.playerEyesPosition :=
  rfl

theorem runUpdates_eyes (sinf cosf : R → R) (hs : List (Sample R)) (s : State R) :
    (runUpdates sinf cosf s hs).playerEyesPosition = s.playerEyesPosition := by
  induction hs generalizing s with
  | nil => rfl
  | cons h hs ih => simp only [runUpdates, ih, update_eyes]

theorem runUpdates_append (sinf cosf : R → R) (xs ys : List (Sample R)) (s : State R) :
    runUpdates sinf cosf s (xs ++ ys) = runUpdates sinf cosf (runUpdates sinf cosf s xs) ys := by
  induction xs generalizing s with
  | nil => rfl
  | cons h hs ih => exact ih (UpdateCustomCamera sinf cosf s h)

theorem runUpdates_snoc (sinf cosf : R → R) (xs : List (Sample R)) (h : Sample R)
    (s : State R) :
    runUpdates sinf cosf s (xs ++ [h]) =
      UpdateCustomCamera sinf cosf (runUpdates sinf cosf s xs) h := by
  rw [runUpdates_append]
  rfl

/-- Every non-empty run ends with a call of `UpdateCustomCamera`. -/
theorem runUpdates_cons_last (sinf cosf : R → R) (h : Sample R) (hs : List (Sample R))
    (s : State R) :
    ∃ (s0 : State R) (h0 : Sample R),
      s0.playerEyesPosition = s.playerEyesPosition ∧
      runUpdates sinf cosf s (h :: hs) = UpdateCustomCamera sinf cosf s0 h0 := by
  induction hs generalizing s h with
  | nil => exact ⟨s, h, rfl, rfl⟩
  | cons h1 hs ih =>
    obtain ⟨s0, h0, he, hr⟩ := ih h1 (UpdateCustomCamera sinf cosf s h)
    exact ⟨s0, h0, by rw [he, update_eyes], by rw [← hr]; rfl⟩

/-! ## The claims -/

/-- C1: after `UpdateCustomCamera` the pitch `cameraAngle.y` lies in the closed interval
`[-85*PI/180, 85*PI/180]`, whatever the state and the input sample; hence after every
update of any non-empty sequence of samples, from the initial state or any other. -/
theorem C1_pitch_in_clamp_interval (sinf cosf : R → R) :
    (∀ (s : State R) (h : Sample R),
      -(85 * PI / 180) ≤ (UpdateCustomCamera sinf cosf s h).cameraAngle.y ∧
      (UpdateCustomCamera sinf cosf s h).cameraAngle.y ≤ 85 * PI / 180) ∧
    (∀ (s : State R) (h : Sample R) (hs : List (Sample R)) (k : Nat),
      -(85 * PI / 180) ≤ (runUpdates sinf cosf s ((h :: hs).take (k + 1))).cameraAngle.y ∧
      (runUpdates sinf cosf s ((h :: hs).take (k + 1))).cameraAngle.y ≤ 85 * PI / 180) := by
  have one : ∀ (s : State R) (h : Sample R),
      -(85 * PI / 180) ≤ (UpdateCustomCamera sinf cosf s h).cameraAngle.y ∧
      (UpdateCustomCamera sinf cosf s h).cameraAngle.y ≤ 85 * PI / 180 := by
    intro s h
    rw [update_pitch]
    exact ⟨clampPitch_lower _, clampPitch_upper _⟩
  refine ⟨one, ?_⟩
  intro s h hs k
  rw [List.take_succ_cons]
  obtain ⟨s0, h0, -, hr⟩ := runUpdates_cons_last sinf cosf h (hs.take k) s
  rw [hr]
  exact one s0 h0

/-- C2: after `UpdateCustomCamera`, `position.y` equals the eye height
`playerEyesPosition`, whatever the key states and the prior `position.y`; the call leaves
`playerEyesPosition` as it was, so from the initial statics the value is `1.85` after every
update of a run. -/
theorem C2_position_y_is_eye_height (sinf cosf : R → R) :
    (∀ (s : State R) (h : Sample R),
      (UpdateCustomCamera sinf cosf s h).camera.position.y = s.playerEyesPosition ∧
      (UpdateCustomCamera sinf cosf s h).playerEyesPosition = s.playerEyesPosition) ∧
    (∀ (camera : Camera R) (h : Sample R) (hs : List (Sample R)),
      (runUpdates sinf cosf (initialState camera) (h :: hs)).camera.position.y = 1.85) := by
  refine ⟨fun s h => ⟨rfl, rfl⟩, ?_⟩
  intro camera h hs
  obtain ⟨s0, h0, he, hr⟩ := runUpdates_cons_last sinf cosf h hs (initialState camera)
  rw [hr, update_position_y, he]
  rfl

/-- C9: `UpdateCustomCamera` writes only `position` and `target` of the camera: the up
vector, `fovy` and `type` keep their values, and so do `playerEyesPosition` and
`cameraTargetDistance`. -/
theorem C9_update_frame (sinf cosf : R → R) (s : State R) (h : Sample R) :
    (UpdateCustomCamera sinf cosf s h).camera.up = s.camera.up ∧
    (UpdateCustomCamera sinf cosf s h).camera.fovy = s.camera.fovy ∧
    (UpdateCustomCamera sinf cosf s h).camera.type = s.camera.type ∧
    (UpdateCustomCamera sinf cosf s h).playerEyesPosition = s.playerEyesPosition ∧
    (UpdateCustomCamera sinf cosf s h).cameraTargetDistance = s.cameraTargetDistance :=
  ⟨rfl, rfl, rfl, rfl, rfl⟩

/-- C3 (as stated, refuted): right after `InitCustomCamera`, one update with the pointer
at rest and no key down puts the target at `(10, 10, -15)` and the position at
`(10, 1.85, 10)`; the squared distance is `625 + 8.15^2`, not `625`. -/
theorem C3_distance_counterexample :
    ¬ (((UpdateCustomCamera Real.sin Real.cos afterInit (keysHeld ⟨0, 0⟩ [])).camera.target.x -
          (UpdateCustomCamera Real.sin Real.cos afterInit (keysHeld ⟨0, 0⟩ [])).camera.position.x) ^ 2 +
        ((UpdateCustomCamera Real.sin Real.cos afterInit (keysHeld ⟨0, 0⟩ [])).camera.target.y -
          (UpdateCustomCamera Real.sin Real.cos afterInit (keysHeld ⟨0, 0⟩ [])).camera.position.y) ^ 2 +
        ((UpdateCustomCamera Real.sin Real.cos afterInit (keysHeld ⟨0, 0⟩ [])).camera.target.z -
          (UpdateCustomCamera Real.sin Real.cos afterInit (keysHeld ⟨0, 0⟩ [])).camera.position.z) ^ 2
        = (625 : ℝ)) := by
  simp only [UpdateCustomCamera, afterInit, InitCustomCamera, initialState, cameraAt, keysHeld,
    translation, direction, CAMERA_FIRST_PERSON_FOCUS_DISTANCE,
    CAMERA_MOUSE_MOVE_SENSITIVITY, PLAYER_MOVEMENT_SENSITIVITY]
  norm_num [boolToFloat]

/-- C3 (amended): when `sinf^2 + cosf^2 = 1`, after `UpdateCustomCamera` the target is
offset from the position by `-25*sinf yaw` in x and `-25*cosf yaw` in z (updated yaw), and in
y by `v = (prior position.y + vertical translation) + 25*sinf pitch - playerEyesPosition`
(updated pitch); the squared distance is `625 + v^2`, which is `625` exactly when
`target.y = position.y`. -/
theorem C3_target_offset (sinf cosf : R → R) (hpyth : ∀ a : R, sinf a ^ 2 + cosf a ^ 2 = 1)
    (s : State R) (h : Sample R) :
    let s1 := UpdateCustomCamera sinf cosf s h
    s1.camera.target.x - s1.camera.position.x = -(25 * sinf s1.cameraAngle.x) ∧
    s1.camera.target.z - s1.camera.position.z = -(25 * cosf s1.cameraAngle.x) ∧
    s1.camera.target.y - s1.camera.position.y =
      (s.camera.position.y + (translation sinf cosf s.cameraAngle (direction h)).y) +
        25 * sinf s1.cameraAngle.y - s.playerEyesPosition ∧
    (s1.camera.target.x - s1.camera.position.x) ^ 2 +
      (s1.camera.target.y - s1.camera.position.y) ^ 2 +
      (s1.camera.target.z - s1.camera.position.z) ^ 2 =
        625 + (s1.camera.target.y - s1.camera.position.y) ^ 2 ∧
    ((s1.camera.target.x - s1.camera.position.x) ^ 2 +
      (s1.camera.target.y - s1.camera.position.y) ^ 2 +
      (s1.camera.target.z - s1.camera.position.z) ^ 2 = 625 ↔
        s1.camera.target.y = s1.camera.position.y) := by
  intro s1
  have hx : s1.camera.target.x - s1.camera.position.x = -(25 * sinf s1.cameraAngle.x) := by
    simp only [s1, UpdateCustomCamera, CAMERA_FIRST_PERSON_FOCUS_DISTANCE]
    norm_num
    ring
  have hz : s1.camera.target.z - s1.camera.position.z = -(25 * cosf s1.cameraAngle.x) := by
    simp only [s1, UpdateCustomCamera, CAMERA_FIRST_PERSON_FOCUS_DISTANCE]
    norm_num
    ring
  have hy : s1.camera.target.y - s1.camera.position.y =
      (s.camera.position.y + (translation sinf cosf s.cameraAngle (direction h)).y) +
        25 * sinf s1.cameraAngle.y - s.playerEyesPosition := by
    simp only [s1, UpdateCustomCamera, CAMERA_FIRST_PERSON_FOCUS_DISTANCE]
    norm_num
    ring
  have hsum : (s1.camera.target.x - s1.camera.position.x) ^ 2 +
      (s1.camera.target.y - s1.camera.position.y) ^ 2 +
      (s1.camera.target.z - s1.camera.position.z) ^ 2 =
        625 + (s1.camera.target.y - s1.camera.position.y) ^ 2 := by
    rw [hx, hz]
    have hp := hpyth s1.cameraAngle.x
    linear_combination 625 * hp
  refine ⟨hx, hz, hy, hsum, ?_⟩
  rw [hsum]
  constructor
  · intro he
    have h0 : (s1.camera.target.y - s1.camera.position.y) ^ 2 = 0 := by linarith
    exact sub_eq_zero.mp (pow_eq_zero_iff two_ne_zero |>.mp h0)
  · intro he
    rw [he]
    ring

/-- C3 (amended), instance: real sine and cosine, the camera at eye height on the
origin, the pointer moved to `(100, 50)` with the forward key down. -/
theorem C3_target_offset_witness :
    (∀ a : ℝ, Real.sin a ^ 2 + Real.cos a ^ 2 = 1) ∧
    (let s1 := UpdateCustomCamera Real.sin Real.cos atOrigin (keysHeld ⟨100, 50⟩ [87])
     s1.camera.target.x - s1.camera.position.x = -(25 * Real.sin s1.cameraAngle.x) ∧
     s1.camera.target.z - s1.camera.position.z = -(25 * Real.cos s1.cameraAngle.x) ∧
     s1.camera.target.y - s1.camera.position.y =
       ((atOrigin (R := ℝ)).camera.position.y +
         (translation Real.sin Real.cos (atOrigin (R := ℝ)).cameraAngle
           (direction (keysHeld (⟨100, 50⟩ : Vector2 ℝ) [87]))).y) +
         25 * Real.sin s1.cameraAngle.y - (atOrigin (R := ℝ)).playerEyesPosition ∧
     (s1.camera.target.x - s1.camera.position.x) ^ 2 +
       (s1.camera.target.y - s1.camera.position.y) ^ 2 +
       (s1.camera.target.z - s1.camera.position.z) ^ 2 =
         625 + (s1.camera.target.y - s1.camera.position.y) ^ 2 ∧
     ((s1.camera.target.x - s1.camera.position.x) ^ 2 +
       (s1.camera.target.y - s1.camera.position.y) ^ 2 +
       (s1.camera.target.z - s1.camera.position.z) ^ 2 = 625 ↔
         s1.camera.target.y = s1.camera.position.y)) :=
  ⟨Real.sin_sq_add_cos_sq,
   C3_target_offset Real.sin Real.cos Real.sin_sq_add_cos_sq atOrigin (keysHeld ⟨100, 50⟩ [87])⟩

/-- C4: opposing keys cancel.  When forward and back have the same state, left and right
have the same state and up and down have the same state (in particular when forward and
back are both down and nothing else is), the translation added to the position is zero in
x, y and z, and `position.x` and `position.z` keep their values. -/
theorem C4_opposing_keys_cancel (sinf cosf : R → R) (s : State R) (h : Sample R)
    (hfb : direction h .MOVE_FRONT = direction h .MOVE_BACK)
    (hlr : direction h .MOVE_LEFT = direction h .MOVE_RIGHT)
    (hud : direction h .MOVE_UP = direction h .MOVE_DOWN) :
    (translation sinf cosf s.cameraAngle (direction h)).x = 0 ∧
    (translation sinf cosf s.cameraAngle (direction h)).y = 0 ∧
    (translation sinf cosf s.cameraAngle (direction h)).z = 0 ∧
    (UpdateCustomCamera sinf cosf s h).camera.position.x = s.camera.position.x ∧
    (UpdateCustomCamera sinf cosf s h).camera.position.z = s.camera.position.z := by
  have tx : (translation sinf cosf s.cameraAngle (direction h)).x = 0 := by
    simp only [translation, hfb, hlr]
    ring
  have ty : (translation sinf cosf s.cameraAngle (direction h)).y = 0 := by
    simp only [translation, hfb, hud]
    ring
  have tz : (translation sinf cosf s.cameraAngle (direction h)).z = 0 := by
    simp only [translation, hfb, hlr]
    ring
  refine ⟨tx, ty, tz, ?_, ?_⟩
  · show s.camera.position.x + (translation sinf cosf s.cameraAngle (direction h)).x = _
    rw [tx, add_zero]
  · show s.camera.position.z + (translation sinf cosf s.cameraAngle (direction h)).z = _
    rw [tz, add_zero]

/-- C4, instance: right after `InitCustomCamera`, with `W` (forward) and `S` (back) both
down and no other key, the pointer moved to `(30, -20)`. -/
theorem C4_opposing_keys_cancel_witness :
    direction (keysHeld (⟨30, -20⟩ : Vector2 ℝ) [87, 83]) .MOVE_FRONT = true ∧
    direction (keysHeld (⟨30, -20⟩ : Vector2 ℝ) [87, 83]) .MOVE_BACK = true ∧
    (translation Real.sin Real.cos (afterInit (R := ℝ)).cameraAngle
      (direction (keysHeld (⟨30, -20⟩ : Vector2 ℝ) [87, 83]))).x = 0 ∧
    (translation Real.sin Real.cos (afterInit (R := ℝ)).cameraAngle
      (direction (keysHeld (⟨30, -20⟩ : Vector2 ℝ) [87, 83]))).y = 0 ∧
    (translation Real.sin Real.cos (afterInit (R := ℝ)).cameraAngle
      (direction (keysHeld (⟨30, -20⟩ : Vector2 ℝ) [87, 83]))).z = 0 ∧
    (UpdateCustomCamera Real.sin Real.cos afterInit
      (keysHeld ⟨30, -20⟩ [87, 83])).camera.position.x = (afterInit (R := ℝ)).camera.position.x ∧
    (UpdateCustomCamera Real.sin Real.cos afterInit
      (keysHeld ⟨30, -20⟩ [87, 83])).camera.position.z = (afterInit (R := ℝ)).camera.position.z :=
  ⟨by decide, by decide,
   C4_opposing_keys_cancel Real.sin Real.cos afterInit (keysHeld ⟨30, -20⟩ [87, 83])
     (by decide) (by decide) (by decide)⟩

/-- C5 (as stated, refuted): right after `InitCustomCamera` the position is
`(10, 10, 10)`; an update with the pointer at its stored position and no key down moves
`position.y` to the eye height `1.85`, so the position is not left unchanged. -/
theorem C5_noop_counterexample :
    (keysHeld (⟨0, 0⟩ : Vector2 ℝ) []).mousePosition.x = (afterInit (R := ℝ)).previousMousePosition.x ∧
    (keysHeld (⟨0, 0⟩ : Vector2 ℝ) []).mousePosition.y = (afterInit (R := ℝ)).previousMousePosition.y ∧
    (∀ m : CameraMove, direction (keysHeld (⟨0, 0⟩ : Vector2 ℝ) []) m = false) ∧
    (afterInit (R := ℝ)).camera.position.y = 10 ∧
    (UpdateCustomCamera Real.sin Real.cos afterInit (keysHeld ⟨0, 0⟩ [])).camera.position.y = 1.85 ∧
    (UpdateCustomCamera Real.sin Real.cos afterInit (keysHeld ⟨0, 0⟩ [])).camera.position.y ≠
      (afterInit (R := ℝ)).camera.position.y := by
  refine ⟨?_, ?_, fun m => rfl, ?_, rfl, ?_⟩
  · norm_num [keysHeld, afterInit, InitCustomCamera, initialState]
  · norm_num [keysHeld, afterInit, InitCustomCamera, initialState]
  · norm_num [afterInit, InitCustomCamera]
  · simp only [update_position_y, afterInit, InitCustomCamera, initialState, cameraAt]
    norm_num

/-- C5 (amended): with the pointer at its stored position and no movement key down,
`UpdateCustomCamera` leaves `position.x`, `position.z` and the yaw unchanged, sets
`position.y` to the eye height, leaves a pitch inside `[-85*PI/180, 85*PI/180]` unchanged,
and recomputes the target from the prior position and these angles; when `position.y` was
already the eye height, the whole position is unchanged. -/
theorem C5_noop_update (sinf cosf : R → R) (s : State R) (h : Sample R)
    (hmx : h.mousePosition.x = s.previousMousePosition.x)
    (hmy : h.mousePosition.y = s.previousMousePosition.y)
    (hkeys : ∀ m : CameraMove, direction h m = false) :
    let s1 := UpdateCustomCamera sinf cosf s h
    s1.camera.position.x = s.camera.position.x ∧
    s1.camera.position.z = s.camera.position.z ∧
    s1.camera.position.y = s.playerEyesPosition ∧
    s1.cameraAngle.x = s.cameraAngle.x ∧
    s1.cameraAngle.y = clampPitch s.cameraAngle.y ∧
    (-(85 * PI / 180) ≤ s.cameraAngle.y → s.cameraAngle.y ≤ 85 * PI / 180 →
      s1.cameraAngle.y = s.cameraAngle.y) ∧
    (s.camera.position.y = s.playerEyesPosition → s1.camera.position = s.camera.position) ∧
    s1.camera.target.x = s.camera.position.x - sinf s.cameraAngle.x * 25 ∧
    s1.camera.target.y = s.camera.position.y + sinf (clampPitch s.cameraAngle.y) * 25 ∧
    s1.camera.target.z = s.camera.position.z - cosf s.cameraAngle.x * 25 := by
  intro s1
  have ht : translation sinf cosf s.cameraAngle (direction h) = ⟨0, 0, 0⟩ := by
    simp [translation, hkeys]
  have hyaw : s1.cameraAngle.x = s.cameraAngle.x := by
    simp [s1, update_yaw, hmx]
  have hpitch : s1.cameraAngle.y = clampPitch s.cameraAngle.y := by
    simp [s1, update_pitch, hmy]
  have hpx : s1.camera.position.x = s.camera.position.x := by
    show s.camera.position.x + (translation sinf cosf s.cameraAngle (direction h)).x = _
    rw [ht, add_zero]
  have hpz : s1.camera.position.z = s.camera.position.z := by
    show s.camera.position.z + (translation sinf cosf s.cameraAngle (direction h)).z = _
    rw [ht, add_zero]
  have hpy : s1.camera.position.y = s.playerEyesPosition := rfl
  refine ⟨hpx, hpz, hpy, hyaw, hpitch, ?_, ?_, ?_, ?_, ?_⟩
  · intro hlo hhi
    rw [hpitch, clampPitch_of_mem _ hlo hhi]
  · intro he
    have hy2 : s1.camera.position.y = s.camera.position.y := by rw [hpy, he]
    calc s1.camera.position
        = ⟨s1.camera.position.x, s1.camera.position.y, s1.camera.position.z⟩ := rfl
      _ = ⟨s.camera.position.x, s.camera.position.y, s.camera.position.z⟩ := by
          rw [hpx, hy2, hpz]
  · show s.camera.position.x + (translation sinf cosf s.cameraAngle (direction h)).x -
      sinf s1.cameraAngle.x * CAMERA_FIRST_PERSON_FOCUS_DISTANCE = _
    rw [ht, hyaw]
    simp only [CAMERA_FIRST_PERSON_FOCUS_DISTANCE]
    norm_num
  · show s.camera.position.y + (translation sinf cosf s.cameraAngle (direction h)).y +
      sinf s1.cameraAngle.y * CAMERA_FIRST_PERSON_FOCUS_DISTANCE = _
    rw [ht, hpitch]
    simp only [CAMERA_FIRST_PERSON_FOCUS_DISTANCE]
    norm_num
  · show s.camera.position.z + (translation sinf cosf s.cameraAngle (direction h)).z -
      cosf s1.cameraAngle.x * CAMERA_FIRST_PERSON_FOCUS_DISTANCE = _
    rw [ht, hyaw]
    simp only [CAMERA_FIRST_PERSON_FOCUS_DISTANCE]
    norm_num

/-- C5 (amended), instance: the camera at eye height on the origin, the pointer at its
stored position `(0, 0)`, no key down: position, yaw and pitch all keep their values. -/
theorem C5_noop_update_witness :
    (keysHeld (⟨0, 0⟩ : Vector2 ℝ) []).mousePosition.x = (atOrigin (R := ℝ)).previousMousePosition.x ∧
    (keysHeld (⟨0, 0⟩ : Vector2 ℝ) []).mousePosition.y = (atOrigin (R := ℝ)).previousMousePosition.y ∧
    (∀ m : CameraMove, direction (keysHeld (⟨0, 0⟩ : Vector2 ℝ) []) m = false) ∧
    (UpdateCustomCamera Real.sin Real.cos atOrigin (keysHeld ⟨0, 0⟩ [])).camera.position =
      (atOrigin (R := ℝ)).camera.position ∧
    (UpdateCustomCamera Real.sin Real.cos atOrigin (keysHeld ⟨0, 0⟩ [])).cameraAngle.x =
      (atOrigin (R := ℝ)).cameraAngle.x ∧
    (UpdateCustomCamera Real.sin Real.cos atOrigin (keysHeld ⟨0, 0⟩ [])).cameraAngle.y =
      (atOrigin (R := ℝ)).cameraAngle.y :=
  have hmx : (keysHeld (⟨0, 0⟩ : Vector2 ℝ) []).mousePosition.x =
      (atOrigin (R := ℝ)).previousMousePosition.x := by
    norm_num [keysHeld, atOrigin, initialState]
  have hmy : (keysHeld (⟨0, 0⟩ : Vector2 ℝ) []).mousePosition.y =
      (atOrigin (R := ℝ)).previousMousePosition.y := by
    norm_num [keysHeld, atOrigin, initialState]
  have hk : ∀ m : CameraMove, direction (keysHeld (⟨0, 0⟩ : Vector2 ℝ) []) m = false :=
    fun _ => rfl
  have hall := C5_noop_update Real.sin Real.cos atOrigin (keysHeld ⟨0, 0⟩ []) hmx hmy hk
  ⟨hmx, hmy, hk, hall.2.2.2.2.2.2.1 rfl, hall.2.2.2.1,
    hall.2.2.2.2.2.1
      (by norm_num [atOrigin, initialState]; exact bound_pos.le)
      (by norm_num [atOrigin, initialState]; exact bound_pos.le)⟩

/-- C6: the yaw after `UpdateCustomCamera` is the yaw before minus `0.003` times the x
pointer delta, for every state and sample (no clamp, no wraparound); a delta of `100` in x
changes the yaw by `-0.3`, and a delta of `0` in y leaves a pitch inside
`[-85*PI/180, 85*PI/180]` unchanged. -/
theorem C6_yaw_accumulates (sinf cosf : R → R) (s : State R) (h : Sample R) :
    (UpdateCustomCamera sinf cosf s h).cameraAngle.x =
      s.cameraAngle.x - 0.003 * (h.mousePosition.x - s.previousMousePosition.x) ∧
    (h.mousePosition.x - s.previousMousePosition.x = 100 →
      (UpdateCustomCamera sinf cosf s h).cameraAngle.x - s.cameraAngle.x = -0.3) ∧
    (h.mousePosition.y - s.previousMousePosition.y = 0 →
      -(85 * PI / 180) ≤ s.cameraAngle.y → s.cameraAngle.y ≤ 85 * PI / 180 →
      (UpdateCustomCamera sinf cosf s h).cameraAngle.y = s.cameraAngle.y) := by
  have hyaw : (UpdateCustomCamera sinf cosf s h).cameraAngle.x =
      s.cameraAngle.x - 0.003 * (h.mousePosition.x - s.previousMousePosition.x) := by
    rw [update_yaw]
    simp only [CAMERA_MOUSE_MOVE_SENSITIVITY]
    ring
  refine ⟨hyaw, ?_, ?_⟩
  · intro hdx
    rw [hyaw, hdx]
    norm_num
  · intro hdy hlo hhi
    rw [update_pitch, hdy, zero_mul, add_zero, clampPitch_of_mem _ hlo hhi]

/-- C6, instance: the initial statics (yaw `0`, pitch `0`, stored pointer `(0, 0)`) and the
pointer moved to `(100, 0)`: the yaw becomes `-0.3` and the pitch stays `0`. -/
theorem C6_yaw_accumulates_witness :
    (keysHeld (⟨100, 0⟩ : Vector2 ℝ) []).mousePosition.x -
      (atOrigin (R := ℝ)).previousMousePosition.x = 100 ∧
    (keysHeld (⟨100, 0⟩ : Vector2 ℝ) []).mousePosition.y -
      (atOrigin (R := ℝ)).previousMousePosition.y = 0 ∧
    (UpdateCustomCamera Real.sin Real.cos atOrigin (keysHeld ⟨100, 0⟩ [])).cameraAngle.x -
      (atOrigin (R := ℝ)).cameraAngle.x = -0.3 ∧
    (UpdateCustomCamera Real.sin Real.cos atOrigin (keysHeld ⟨100, 0⟩ [])).cameraAngle.y =
      (atOrigin (R := ℝ)).cameraAngle.y :=
  have hdx : (keysHeld (⟨100, 0⟩ : Vector2 ℝ) []).mousePosition.x -
      (atOrigin (R := ℝ)).previousMousePosition.x = 100 := by
    norm_num [keysHeld, atOrigin, initialState]
  have hdy : (keysHeld (⟨100, 0⟩ : Vector2 ℝ) []).mousePosition.y -
      (atOrigin (R := ℝ)).previousMousePosition.y = 0 := by
    norm_num [keysHeld, atOrigin, initialState]
  have hall := C6_yaw_accumulates Real.sin Real.cos atOrigin (keysHeld ⟨100, 0⟩ [])
  ⟨hdx, hdy, hall.2.1 hdx,
    hall.2.2 hdy
      (by norm_num [atOrigin, initialState]; exact bound_pos.le)
      (by norm_num [atOrigin, initialState]; exact bound_pos.le)⟩

/-- C7 (as stated, refuted): from yaw `0`, pitch `0`, position `(0, 1.85, 0)`, one update
with only `W` (forward) down and the pointer at rest does not give target `(0, 1.85, 25)`:
the target is computed as `position.z - cosf(yaw)*25`, which is `-0.05 - 25`. -/
theorem C7_forward_scenario_counterexample :
    ¬ ((UpdateCustomCamera Real.sin Real.cos atOrigin (keysHeld ⟨0, 0⟩ [87])).camera.position.x = 0 ∧
       (UpdateCustomCamera Real.sin Real.cos atOrigin (keysHeld ⟨0, 0⟩ [87])).camera.position.y = 1.85 ∧
       (UpdateCustomCamera Real.sin Real.cos atOrigin (keysHeld ⟨0, 0⟩ [87])).camera.position.z = -(1 / 20) ∧
       (UpdateCustomCamera Real.sin Real.cos atOrigin (keysHeld ⟨0, 0⟩ [87])).camera.target.x = 0 ∧
       (UpdateCustomCamera Real.sin Real.cos atOrigin (keysHeld ⟨0, 0⟩ [87])).camera.target.y = 1.85 ∧
       (UpdateCustomCamera Real.sin Real.cos atOrigin (keysHeld ⟨0, 0⟩ [87])).camera.target.z =
         (25 : ℝ)) := by
  intro hclaim
  have hz := hclaim.2.2.2.2.2
  simp only [UpdateCustomCamera, atOrigin, initialState, cameraAt, keysHeld,
    translation, direction, cameraMoveControl, CAMERA_FIRST_PERSON_FOCUS_DISTANCE,
    CAMERA_MOUSE_MOVE_SENSITIVITY, PLAYER_MOVEMENT_SENSITIVITY] at hz
  norm_num [boolToFloat] at hz

/-- C7 (amended): with `sinf 0 = 0` and `cosf 0 = 1`, from yaw `0`, pitch `0`, position
`(0, 1.85, 0)` and eye height `1.85`, one update with only the forward key down and the
pointer at its stored position gives position `(0, 1.85, -0.05)` and target
`(0, 1.85, -25.05)`. -/
theorem C7_forward_scenario (sinf cosf : R → R) (hsin : sinf 0 = 0) (hcos : cosf 0 = 1)
    (s : State R) (h : Sample R)
    (hyaw : s.cameraAngle.x = 0) (hpitch : s.cameraAngle.y = 0)
    (hpx : s.camera.position.x = 0) (hpy : s.camera.position.y = 1.85)
    (hpz : s.camera.position.z = 0) (heye : s.playerEyesPosition = 1.85)
    (hmx : h.mousePosition.x = s.previousMousePosition.x)
    (hmy : h.mousePosition.y = s.previousMousePosition.y)
    (hfront : direction h .MOVE_FRONT = true)
    (hothers : ∀ m : CameraMove, m ≠ .MOVE_FRONT → direction h m = false) :
    (UpdateCustomCamera sinf cosf s h).camera.position.x = 0 ∧
    (UpdateCustomCamera sinf cosf s h).camera.position.y = 1.85 ∧
    (UpdateCustomCamera sinf cosf s h).camera.position.z = -0.05 ∧
    (UpdateCustomCamera sinf cosf s h).camera.target.x = 0 ∧
    (UpdateCustomCamera sinf cosf s h).camera.target.y = 1.85 ∧
    (UpdateCustomCamera sinf cosf s h).camera.target.z = -25.05 := by
  have hb := hothers .MOVE_BACK (by decide)
  have hr := hothers .MOVE_RIGHT (by decide)
  have hl := hothers .MOVE_LEFT (by decide)
  have hu := hothers .MOVE_UP (by decide)
  have hd := hothers .MOVE_DOWN (by decide)
  simp only [UpdateCustomCamera, translation, hyaw, hpitch, hpx, hpy, hpz, heye, hmx, hmy,
    hfront, hb, hr, hl, hu, hd, hsin, hcos, sub_self, zero_mul, add_zero, clampPitch_zero,
    boolToFloat_true, boolToFloat_false, CAMERA_FIRST_PERSON_FOCUS_DISTANCE,
    PLAYER_MOVEMENT_SENSITIVITY]
  norm_num

/-- C7 (amended), instance: real sine and cosine, the initial statics around a camera at
`(0, 1.85, 0)`, the pointer at `(0, 0)` and only `W` down. -/
theorem C7_forward_scenario_witness :
    Real.sin 0 = 0 ∧ Real.cos 0 = 1 ∧
    direction (keysHeld (⟨0, 0⟩ : Vector2 ℝ) [87]) .MOVE_FRONT = true ∧
    (∀ m : CameraMove, m ≠ .MOVE_FRONT → direction (keysHeld (⟨0, 0⟩ : Vector2 ℝ) [87]) m = false) ∧
    (UpdateCustomCamera Real.sin Real.cos atOrigin (keysHeld ⟨0, 0⟩ [87])).camera.position.x = 0 ∧
    (UpdateCustomCamera Real.sin Real.cos atOrigin (keysHeld ⟨0, 0⟩ [87])).camera.position.y = 1.85 ∧
    (UpdateCustomCamera Real.sin Real.cos atOrigin (keysHeld ⟨0, 0⟩ [87])).camera.position.z = -0.05 ∧
    (UpdateCustomCamera Real.sin Real.cos atOrigin (keysHeld ⟨0, 0⟩ [87])).camera.target.x = 0 ∧
    (UpdateCustomCamera Real.sin Real.cos atOrigin (keysHeld ⟨0, 0⟩ [87])).camera.target.y = 1.85 ∧
    (UpdateCustomCamera Real.sin Real.cos atOrigin (keysHeld ⟨0, 0⟩ [87])).camera.target.z =
      (-25.05 : ℝ) :=
  have hfront : direction (keysHeld (⟨0, 0⟩ : Vector2 ℝ) [87]) .MOVE_FRONT = true := by decide
  have hothers : ∀ m : CameraMove, m ≠ .MOVE_FRONT →
      direction (keysHeld (⟨0, 0⟩ : Vector2 ℝ) [87]) m = false := by
    intro m hm
    cases m
    · exact absurd rfl hm
    all_goals decide
  ⟨Real.sin_zero, Real.cos_zero, hfront, hothers,
   C7_forward_scenario Real.sin Real.cos Real.sin_zero Real.cos_zero atOrigin
     (keysHeld ⟨0, 0⟩ [87])
     (by norm_num [atOrigin, initialState]) (by norm_num [atOrigin, initialState])
     (by norm_num [atOrigin, initialState, cameraAt]) (by norm_num [atOrigin, initialState, cameraAt])
     (by norm_num [atOrigin, initialState, cameraAt]) (by norm_num [atOrigin, initialState])
     (by norm_num [atOrigin, initialState, keysHeld]) (by norm_num [atOrigin, initialState, keysHeld])
     hfront hothers⟩

/-- C8 (as stated, refuted): with the camera at eye height on the origin and the pointer
at rest, the sample with no key down and the sample with only `E` (up) down differ only in
the up key, yet `target.y` is `1.85` for the first and `1.9` for the second. -/
theorem C8_up_down_counterexample :
    (keysHeld (⟨0, 0⟩ : Vector2 ℝ) []).mousePosition.x =
      (keysHeld (⟨0, 0⟩ : Vector2 ℝ) [69]).mousePosition.x ∧
    (keysHeld (⟨0, 0⟩ : Vector2 ℝ) []).mousePosition.y =
      (keysHeld (⟨0, 0⟩ : Vector2 ℝ) [69]).mousePosition.y ∧
    (∀ k : Int, k ≠ cameraMoveControl .MOVE_UP → k ≠ cameraMoveControl .MOVE_DOWN →
      (keysHeld (⟨0, 0⟩ : Vector2 ℝ) []).IsKeyDown k =
        (keysHeld (⟨0, 0⟩ : Vector2 ℝ) [69]).IsKeyDown k) ∧
    (UpdateCustomCamera Real.sin Real.cos atOrigin (keysHeld ⟨0, 0⟩ [])).camera.target.y = 1.85 ∧
    (UpdateCustomCamera Real.sin Real.cos atOrigin (keysHeld ⟨0, 0⟩ [69])).camera.target.y = 1.9 ∧
    (UpdateCustomCamera Real.sin Real.cos atOrigin (keysHeld ⟨0, 0⟩ [])).camera.target.y ≠
      (UpdateCustomCamera Real.sin Real.cos atOrigin (keysHeld ⟨0, 0⟩ [69])).camera.target.y := by
  have hA : (UpdateCustomCamera Real.sin Real.cos atOrigin
      (keysHeld ⟨0, 0⟩ [])).camera.target.y = 1.85 := by
    simp only [UpdateCustomCamera, atOrigin, initialState, cameraAt, keysHeld,
      translation, direction, cameraMoveControl, CAMERA_FIRST_PERSON_FOCUS_DISTANCE,
      CAMERA_MOUSE_MOVE_SENSITIVITY, PLAYER_MOVEMENT_SENSITIVITY]
    norm_num [boolToFloat]
  have hB : (UpdateCustomCamera Real.sin Real.cos atOrigin
      (keysHeld ⟨0, 0⟩ [69])).camera.target.y = 1.9 := by
    simp only [UpdateCustomCamera, atOrigin, initialState, cameraAt, keysHeld,
      translation, direction, cameraMoveControl, CAMERA_FIRST_PERSON_FOCUS_DISTANCE,
      CAMERA_MOUSE_MOVE_SENSITIVITY, PLAYER_MOVEMENT_SENSITIVITY]
    norm_num [boolToFloat]
  refine ⟨rfl, rfl, ?_, hA, hB, ?_⟩
  · intro k hup _
    have hk : k ≠ 69 := hup
    simp [keysHeld, hk]
  · rw [hA, hB]
    norm_num

/-- C8 (amended): two samples with the same pointer position that agree on every key other
than the up and down keys give the same position, yaw, pitch, stored pointer, `target.x`
and `target.z`; the vertical displacement is dropped from `position.y` but stays in
`target.y`, whose two values differ by `((up1 - down1) - (up2 - down2)) / 20`. -/
theorem C8_up_down_only_in_target_y (sinf cosf : R → R) (s : State R) (h1 h2 : Sample R)
    (hmouse : h1.mousePosition = h2.mousePosition)
    (hkeys : ∀ k : Int, k ≠ cameraMoveControl .MOVE_UP → k ≠ cameraMoveControl .MOVE_DOWN →
      h1.IsKeyDown k = h2.IsKeyDown k) :
    (UpdateCustomCamera sinf cosf s h1).camera.position =
      (UpdateCustomCamera sinf cosf s h2).camera.position ∧
    (UpdateCustomCamera sinf cosf s h1).cameraAngle =
      (UpdateCustomCamera sinf cosf s h2).cameraAngle ∧
    (UpdateCustomCamera sinf cosf s h1).previousMousePosition =
      (UpdateCustomCamera sinf cosf s h2).previousMousePosition ∧
    (UpdateCustomCamera sinf cosf s h1).camera.target.x =
      (UpdateCustomCamera sinf cosf s h2).camera.target.x ∧
    (UpdateCustomCamera sinf cosf s h1).camera.target.z =
      (UpdateCustomCamera sinf cosf s h2).camera.target.z ∧
    (UpdateCustomCamera sinf cosf s h1).camera.target.y -
      (UpdateCustomCamera sinf cosf s h2).camera.target.y =
        ((boolToFloat (direction h1 .MOVE_UP) - boolToFloat (direction h1 .MOVE_DOWN)) -
         (boolToFloat (direction h2 .MOVE_UP) - boolToFloat (direction h2 .MOVE_DOWN))) / 20 := by
  have hf : direction h1 .MOVE_FRONT = direction h2 .MOVE_FRONT :=
    hkeys _ (by decide) (by decide)
  have hb : direction h1 .MOVE_BACK = direction h2 .MOVE_BACK :=
    hkeys _ (by decide) (by decide)
  have hr : direction h1 .MOVE_RIGHT = direction h2 .MOVE_RIGHT :=
    hkeys _ (by decide) (by decide)
  have hl : direction h1 .MOVE_LEFT = direction h2 .MOVE_LEFT :=
    hkeys _ (by decide) (by decide)
  simp only [UpdateCustomCamera, translation, hmouse, hf, hb, hr, hl,
    PLAYER_MOVEMENT_SENSITIVITY, true_and]
  norm_num
  ring

/-- C8 (amended), instance: right after `InitCustomCamera`, the pointer at `(12, 7)`, `W`
down in both samples, `E` (up) down in the first and `Q` (down) in the second: same
position and angles, and `target.y` differs by `(1 - (-1)) / 20`. -/
theorem C8_up_down_only_in_target_y_witness :
    (keysHeld (⟨12, 7⟩ : Vector2 ℝ) [87, 69]).mousePosition =
      (keysHeld (⟨12, 7⟩ : Vector2 ℝ) [87, 81]).mousePosition ∧
    (∀ k : Int, k ≠ cameraMoveControl .MOVE_UP → k ≠ cameraMoveControl .MOVE_DOWN →
      (keysHeld (⟨12, 7⟩ : Vector2 ℝ) [87, 69]).IsKeyDown k =
        (keysHeld (⟨12, 7⟩ : Vector2 ℝ) [87, 81]).IsKeyDown k) ∧
    (UpdateCustomCamera Real.sin Real.cos afterInit (keysHeld ⟨12, 7⟩ [87, 69])).camera.position =
      (UpdateCustomCamera Real.sin Real.cos afterInit (keysHeld ⟨12, 7⟩ [87, 81])).camera.position ∧
    (UpdateCustomCamera Real.sin Real.cos afterInit (keysHeld ⟨12, 7⟩ [87, 69])).cameraAngle =
      (UpdateCustomCamera Real.sin Real.cos afterInit (keysHeld ⟨12, 7⟩ [87, 81])).cameraAngle ∧
    (UpdateCustomCamera Real.sin Real.cos afterInit (keysHeld ⟨12, 7⟩ [87, 69])).camera.target.y -
      (UpdateCustomCamera Real.sin Real.cos afterInit (keysHeld ⟨12, 7⟩ [87, 81])).camera.target.y =
        ((boolToFloat (direction (keysHeld (⟨12, 7⟩ : Vector2 ℝ) [87, 69]) .MOVE_UP) -
          boolToFloat (direction (keysHeld (⟨12, 7⟩ : Vector2 ℝ) [87, 69]) .MOVE_DOWN)) -
         (boolToFloat (direction (keysHeld (⟨12, 7⟩ : Vector2 ℝ) [87, 81]) .MOVE_UP) -
          boolToFloat (direction (keysHeld (⟨12, 7⟩ : Vector2 ℝ) [87, 81]) .MOVE_DOWN))) / 20 :=
  have hmouse : (keysHeld (⟨12, 7⟩ : Vector2 ℝ) [87, 69]).mousePosition =
      (keysHeld (⟨12, 7⟩ : Vector2 ℝ) [87, 81]).mousePosition := rfl
  have hkeys : ∀ k : Int, k ≠ cameraMoveControl .MOVE_UP → k ≠ cameraMoveControl .MOVE_DOWN →
      (keysHeld (⟨12, 7⟩ : Vector2 ℝ) [87, 69]).IsKeyDown k =
        (keysHeld (⟨12, 7⟩ : Vector2 ℝ) [87, 81]).IsKeyDown k := by
    intro k hup hdown
    have h69 : k ≠ 69 := hup
    have h81 : k ≠ 81 := hdown
    simp [keysHeld, h69, h81]
  have hall := C8_up_down_only_in_target_y Real.sin Real.cos afterInit
    (keysHeld ⟨12, 7⟩ [87, 69]) (keysHeld ⟨12, 7⟩ [87, 81]) hmouse hkeys
  ⟨hmouse, hkeys, hall.1, hall.2.1, hall.2.2.2.2.2⟩

/-- C10 (as stated, refuted): from yaw `0` at `(0, 1.85, 0)`, with `W` down and the
pointer moved from `(0, 0)` to `(-1000, 0)`, the code translates with the stored yaw `0` and
leaves `position.x = 0`, while the specification's order translates with the accumulated
yaw `3` and gives `position.x = -sin 3 / 20`, which is not `0`. -/
theorem C10_step_order_counterexample :
    UpdateCustomCamera Real.sin Real.cos atOrigin (keysHeld ⟨-1000, 0⟩ [87]) ≠
      updateSpecOrder Real.sin Real.cos atOrigin (keysHeld ⟨-1000, 0⟩ [87]) := by
  intro heq
  have hx := congrArg (fun t : State ℝ => t.camera.position.x) heq
  simp only [UpdateCustomCamera, updateSpecOrder, stepEyeHeight, stepTarget, stepTranslate,
    stepClamp, stepAccumulate, pointerDelta, storePointer, atOrigin, initialState, cameraAt,
    keysHeld, translation, direction, cameraMoveControl, CAMERA_MOUSE_MOVE_SENSITIVITY,
    PLAYER_MOVEMENT_SENSITIVITY] at hx
  norm_num [boolToFloat] at hx
  have hpos : 0 < Real.sin 3 :=
    Real.sin_pos_of_pos_of_lt_pi (by norm_num) Real.pi_gt_three
  linarith

/-- C10 (amended): `UpdateCustomCamera` performs the translation first, from the yaw and
pitch stored before this frame's accumulation, and then accumulates, clamps, recomputes the
target and forces the eye height (steps 3, 1, 2, 4, 5): the code's update equals the
translation-first update for every state and input, and the translation added to
`position.x` and `position.z` is the one computed from the prior `cameraAngle`. -/
theorem C10_translation_precedes_accumulation (sinf cosf : R → R) (s : State R) (h : Sample R) :
    UpdateCustomCamera sinf cosf s h = updateTranslateFirst sinf cosf s h ∧
    (UpdateCustomCamera sinf cosf s h).camera.position.x =
      s.camera.position.x + (translation sinf cosf s.cameraAngle (direction h)).x ∧
    (UpdateCustomCamera sinf cosf s h).camera.position.z =
      s.camera.position.z + (translation sinf cosf s.cameraAngle (direction h)).z :=
  ⟨rfl, rfl, rfl⟩

/-! ## Further facts used by the later claims -/

theorem bound_gt_one : (1 : R) < 85 * PI / 180 := by
  unfold PI
  norm_num

theorem bound_lt_two : (85 * PI / 180 : R) < 2 := by
  unfold PI
  norm_num

/-- C11: the clamp pins exactly at the bound and is the identity inside it.  With
`q = pitch - 0.003*dy`, the pitch after `UpdateCustomCamera` is `85*PI/180` when
`q > 85*PI/180`, is `-85*PI/180` when `q < -85*PI/180`, and is `q` otherwise. -/
theorem C11_pitch_clamp_cases (sinf cosf : R → R) (s : State R) (h : Sample R) :
    let q := s.cameraAngle.y - 0.003 * (h.mousePosition.y - s.previousMousePosition.y)
    (q > 85 * PI / 180 →
      (UpdateCustomCamera sinf cosf s h).cameraAngle.y = 85 * PI / 180) ∧
    (q < -(85 * PI / 180) →
      (UpdateCustomCamera sinf cosf s h).cameraAngle.y = -(85 * PI / 180)) ∧
    (-(85 * PI / 180) ≤ q → q ≤ 85 * PI / 180 →
      (UpdateCustomCamera sinf cosf s h).cameraAngle.y = q) := by
  intro q
  have hb := bound_pos (R := R)
  have hq : (UpdateCustomCamera sinf cosf s h).cameraAngle.y = clampPitch q := by
    rw [update_pitch]
    congr 1
    simp only [q, CAMERA_MOUSE_MOVE_SENSITIVITY]
    ring
  refine ⟨?_, ?_, ?_⟩
  · intro hgt
    rw [hq, clampPitch_eq, if_pos hgt]
  · intro hlt
    have hng : ¬ q > 85 * PI / 180 := by
      intro hgt
      linarith
    rw [hq, clampPitch_eq, if_neg hng, if_pos hlt]
  · intro hlo hhi
    rw [hq, clampPitch_of_mem _ hlo hhi]

/-- C11, instance: from pitch `0` and stored pointer `(0, 0)`, the pointer at
`(0, -1000)` gives `q = 3` and the pitch `85*PI/180`; at `(0, 1000)` it gives `q = -3` and
the pitch `-85*PI/180`; at `(0, 100)` it gives `q = -0.3`, which is kept. -/
theorem C11_pitch_clamp_cases_witness :
    ((atOrigin (R := ℝ)).cameraAngle.y - 0.003 *
        ((keysHeld (⟨0, -1000⟩ : Vector2 ℝ) []).mousePosition.y -
          (atOrigin (R := ℝ)).previousMousePosition.y) > 85 * PI / 180 ∧
      (UpdateCustomCamera Real.sin Real.cos atOrigin
        (keysHeld ⟨0, -1000⟩ [])).cameraAngle.y = 85 * PI / 180) ∧
    ((atOrigin (R := ℝ)).cameraAngle.y - 0.003 *
        ((keysHeld (⟨0, 1000⟩ : Vector2 ℝ) []).mousePosition.y -
          (atOrigin (R := ℝ)).previousMousePosition.y) < -(85 * PI / 180) ∧
      (UpdateCustomCamera Real.sin Real.cos atOrigin
        (keysHeld ⟨0, 1000⟩ [])).cameraAngle.y = -(85 * PI / 180)) ∧
    (UpdateCustomCamera Real.sin Real.cos atOrigin
      (keysHeld ⟨0, 100⟩ [])).cameraAngle.y = -0.3 := by
  have hlo := bound_gt_one (R := ℝ)
  have hhi := bound_lt_two (R := ℝ)
  have h1 : (atOrigin (R := ℝ)).cameraAngle.y - 0.003 *
      ((keysHeld (⟨0, -1000⟩ : Vector2 ℝ) []).mousePosition.y -
        (atOrigin (R := ℝ)).previousMousePosition.y) > 85 * PI / 180 := by
    norm_num [atOrigin, initialState, keysHeld]
    linarith
  have h2 : (atOrigin (R := ℝ)).cameraAngle.y - 0.003 *
      ((keysHeld (⟨0, 1000⟩ : Vector2 ℝ) []).mousePosition.y -
        (atOrigin (R := ℝ)).previousMousePosition.y) < -(85 * PI / 180) := by
    norm_num [atOrigin, initialState, keysHeld]
    linarith
  have h3 : (atOrigin (R := ℝ)).cameraAngle.y - 0.003 *
      ((keysHeld (⟨0, 100⟩ : Vector2 ℝ) []).mousePosition.y -
        (atOrigin (R := ℝ)).previousMousePosition.y) = -0.3 := by
    norm_num [atOrigin, initialState, keysHeld]
  refine ⟨⟨h1, (C11_pitch_clamp_cases Real.sin Real.cos atOrigin (keysHeld ⟨0, -1000⟩ [])).1 h1⟩,
    ⟨h2, (C11_pitch_clamp_cases Real.sin Real.cos atOrigin (keysHeld ⟨0, 1000⟩ [])).2.1 h2⟩, ?_⟩
  have h4 := (C11_pitch_clamp_cases Real.sin Real.cos atOrigin (keysHeld ⟨0, 100⟩ [])).2.2
    (by rw [h3]; linarith) (by rw [h3]; linarith)
  rw [h4, h3]

/-- C12: `InitCustomCamera` sets the camera to position `(10, 10, 10)`, target
`(0, 0, 0)`, up `(0, 1, 0)`, `fovy = 45` and the perspective type, whatever the camera was
before, and leaves yaw, pitch, eye height, `cameraTargetDistance` and the stored pointer
position as they were. -/
theorem C12_init_is_constant (s : State R) :
    (InitCustomCamera s).camera.position = ⟨10, 10, 10⟩ ∧
    (InitCustomCamera s).camera.target = ⟨0, 0, 0⟩ ∧
    (InitCustomCamera s).camera.up = ⟨0, 1, 0⟩ ∧
    (InitCustomCamera s).camera.fovy = 45 ∧
    (InitCustomCamera s).camera.type = CAMERA_PERSPECTIVE ∧
    (∀ s2 : State R, (InitCustomCamera s).camera = (InitCustomCamera s2).camera) ∧
    (InitCustomCamera s).cameraAngle = s.cameraAngle ∧
    (InitCustomCamera s).playerEyesPosition = s.playerEyesPosition ∧
    (InitCustomCamera s).cameraTargetDistance = s.cameraTargetDistance ∧
    (InitCustomCamera s).previousMousePosition = s.previousMousePosition := by
  refine ⟨?_, ?_, ?_, ?_, rfl, fun _ => rfl, rfl, rfl, rfl, rfl⟩
  · simp only [InitCustomCamera]
    norm_num
  · simp only [InitCustomCamera]
    norm_num
  · simp only [InitCustomCamera]
    norm_num
  · simp only [InitCustomCamera]
    norm_num

theorem update_previousMouse (sinf cosf : R → R) (s : State R) (h : Sample R) :
    (UpdateCustomCamera sinf cosf s h).previousMousePosition = h.mousePosition :=
  rfl

theorem update_horizontal_offset (sinf cosf : R → R) (s : State R) (h : Sample R) :
    (UpdateCustomCamera sinf cosf s h).camera.target.x -
        (UpdateCustomCamera sinf cosf s h).camera.position.x =
      -(25 * sinf (UpdateCustomCamera sinf cosf s h).cameraAngle.x) ∧
    (UpdateCustomCamera sinf cosf s h).camera.target.z -
        (UpdateCustomCamera sinf cosf s h).camera.position.z =
      -(25 * cosf (UpdateCustomCamera sinf cosf s h).cameraAngle.x) := by
  constructor
  · simp only [UpdateCustomCamera, CAMERA_FIRST_PERSON_FOCUS_DISTANCE]
    norm_num
    ring
  · simp only [UpdateCustomCamera, CAMERA_FIRST_PERSON_FOCUS_DISTANCE]
    norm_num
    ring

/-- C13: when `sinf^2 + cosf^2 = 1`, after `UpdateCustomCamera` the horizontal distance
between target and position is exactly `25`:
`(target.x - position.x)^2 + (target.z - position.z)^2 = 625`, for every state (any pitch,
any prior position) and every sample (any keys). -/
theorem C13_horizontal_distance (sinf cosf : R → R)
    (hpyth : ∀ a : R, sinf a ^ 2 + cosf a ^ 2 = 1) (s : State R) (h : Sample R) :
    ((UpdateCustomCamera sinf cosf s h).camera.target.x -
        (UpdateCustomCamera sinf cosf s h).camera.position.x) ^ 2 +
      ((UpdateCustomCamera sinf cosf s h).camera.target.z -
        (UpdateCustomCamera sinf cosf s h).camera.position.z) ^ 2 = 625 := by
  obtain ⟨hx, hz⟩ := update_horizontal_offset sinf cosf s h
  rw [hx, hz]
  have hp := hpyth (UpdateCustomCamera sinf cosf s h).cameraAngle.x
  linear_combination 625 * hp

/-- C13, instance: real sine and cosine, right after `InitCustomCamera`, the pointer moved
to `(250, -400)` with `W`, `D` and `E` down. -/
theorem C13_horizontal_distance_witness :
    (∀ a : ℝ, Real.sin a ^ 2 + Real.cos a ^ 2 = 1) ∧
    ((UpdateCustomCamera Real.sin Real.cos afterInit
        (keysHeld ⟨250, -400⟩ [87, 68, 69])).camera.target.x -
      (UpdateCustomCamera Real.sin Real.cos afterInit
        (keysHeld ⟨250, -400⟩ [87, 68, 69])).camera.position.x) ^ 2 +
    ((UpdateCustomCamera Real.sin Real.cos afterInit
        (keysHeld ⟨250, -400⟩ [87, 68, 69])).camera.target.z -
      (UpdateCustomCamera Real.sin Real.cos afterInit
        (keysHeld ⟨250, -400⟩ [87, 68, 69])).camera.position.z) ^ 2 = (625 : ℝ) :=
  ⟨Real.sin_sq_add_cos_sq,
   C13_horizontal_distance Real.sin Real.cos Real.sin_sq_add_cos_sq afterInit
     (keysHeld ⟨250, -400⟩ [87, 68, 69])⟩

/-- C14: the yaw depends only on the last pointer position.  After running
`UpdateCustomCamera` on a non-empty sequence of samples, the yaw is the initial yaw minus
`0.003` times (x of the last pointer position minus x of the initially stored pointer
position), and the stored pointer position is the last pointer position. -/
theorem C14_yaw_telescopes (sinf cosf : R → R) (s : State R) (h : Sample R)
    (hs : List (Sample R)) :
    (runUpdates sinf cosf s (h :: hs)).cameraAngle.x =
      s.cameraAngle.x - 0.003 *
        (((h :: hs).getLast (List.cons_ne_nil h hs)).mousePosition.x -
          s.previousMousePosition.x) ∧
    (runUpdates sinf cosf s (h :: hs)).previousMousePosition =
      ((h :: hs).getLast (List.cons_ne_nil h hs)).mousePosition := by
  induction hs generalizing s h with
  | nil =>
    refine ⟨?_, rfl⟩
    show (UpdateCustomCamera sinf cosf s h).cameraAngle.x = _
    rw [update_yaw]
    simp only [List.getLast_singleton, CAMERA_MOUSE_MOVE_SENSITIVITY]
    ring
  | cons h1 hs ih =>
    obtain ⟨hy, hp⟩ := ih (UpdateCustomCamera sinf cosf s h) h1
    have hrun : runUpdates sinf cosf s (h :: h1 :: hs) =
        runUpdates sinf cosf (UpdateCustomCamera sinf cosf s h) (h1 :: hs) := rfl
    rw [hrun, List.getLast_cons_cons]
    refine ⟨?_, hp⟩
    rw [hy, update_yaw, update_previousMouse]
    simp only [CAMERA_MOUSE_MOVE_SENSITIVITY]
    ring

/-- C15: forward goes toward the target.  When `sinf^2 + cosf^2 = 1`, an update with zero
pointer delta (only the x delta matters) and only the forward key down moves `(position.x, position.z)` by exactly
`1/500` of the resulting offset `(target.x - position.x, target.z - position.z)`, a
displacement of squared length `(1/20)^2`; the displacement an update with only the right
key down gives from the same state is perpendicular to it in the XZ plane and has the same
squared length. -/
theorem C15_forward_toward_target (sinf cosf : R → R)
    (hpyth : ∀ a : R, sinf a ^ 2 + cosf a ^ 2 = 1) (s : State R) (hf hr : Sample R)
    (hmx : hf.mousePosition.x = s.previousMousePosition.x)
    (hfront : direction hf .MOVE_FRONT = true)
    (hfothers : ∀ m : CameraMove, m ≠ .MOVE_FRONT → direction hf m = false)
    (hright : direction hr .MOVE_RIGHT = true)
    (hrothers : ∀ m : CameraMove, m ≠ .MOVE_RIGHT → direction hr m = false) :
    let sf := UpdateCustomCamera sinf cosf s hf
    let sr := UpdateCustomCamera sinf cosf s hr
    sf.camera.position.x - s.camera.position.x =
      (sf.camera.target.x - sf.camera.position.x) / 500 ∧
    sf.camera.position.z - s.camera.position.z =
      (sf.camera.target.z - sf.camera.position.z) / 500 ∧
    (sf.camera.position.x - s.camera.position.x) ^ 2 +
      (sf.camera.position.z - s.camera.position.z) ^ 2 = (1 / 20) ^ 2 ∧
    (sf.camera.position.x - s.camera.position.x) * (sr.camera.position.x - s.camera.position.x) +
      (sf.camera.position.z - s.camera.position.z) * (sr.camera.position.z - s.camera.position.z)
        = 0 ∧
    (sr.camera.position.x - s.camera.position.x) ^ 2 +
      (sr.camera.position.z - s.camera.position.z) ^ 2 = (1 / 20) ^ 2 := by
  intro sf sr
  have hp := hpyth s.cameraAngle.x
  have hyaw : sf.cameraAngle.x = s.cameraAngle.x := by
    simp [sf, update_yaw, hmx]
  obtain ⟨htx, htz⟩ := update_horizontal_offset sinf cosf s hf
  have hfx : sf.camera.position.x - s.camera.position.x = -(sinf s.cameraAngle.x / 20) := by
    simp only [sf, UpdateCustomCamera, translation, hfront,
      hfothers .MOVE_BACK (by decide), hfothers .MOVE_LEFT (by decide),
      hfothers .MOVE_RIGHT (by decide), boolToFloat_true, boolToFloat_false,
      PLAYER_MOVEMENT_SENSITIVITY]
    norm_num
    ring
  have hfz : sf.camera.position.z - s.camera.position.z = -(cosf s.cameraAngle.x / 20) := by
    simp only [sf, UpdateCustomCamera, translation, hfront,
      hfothers .MOVE_BACK (by decide), hfothers .MOVE_LEFT (by decide),
      hfothers .MOVE_RIGHT (by decide), boolToFloat_true, boolToFloat_false,
      PLAYER_MOVEMENT_SENSITIVITY]
    norm_num
    ring
  have hrx : sr.camera.position.x - s.camera.position.x = cosf s.cameraAngle.x / 20 := by
    simp only [sr, UpdateCustomCamera, translation, hright,
      hrothers .MOVE_BACK (by decide), hrothers .MOVE_LEFT (by decide),
      hrothers .MOVE_FRONT (by decide), boolToFloat_true, boolToFloat_false,
      PLAYER_MOVEMENT_SENSITIVITY]
    norm_num
  have hrz : sr.camera.position.z - s.camera.position.z = -(sinf s.cameraAngle.x / 20) := by
    simp only [sr, UpdateCustomCamera, translation, hright,
      hrothers .MOVE_BACK (by decide), hrothers .MOVE_LEFT (by decide),
      hrothers .MOVE_FRONT (by decide), boolToFloat_true, boolToFloat_false,
      PLAYER_MOVEMENT_SENSITIVITY]
    norm_num
    ring
  refine ⟨?_, ?_, ?_, ?_, ?_⟩
  · show sf.camera.position.x - s.camera.position.x =
      ((UpdateCustomCamera sinf cosf s hf).camera.target.x -
        (UpdateCustomCamera sinf cosf s hf).camera.position.x) / 500
    rw [htx, hfx]
    show _ = -(25 * sinf sf.cameraAngle.x) / 500
    rw [hyaw]
    ring
  · show sf.camera.position.z - s.camera.position.z =
      ((UpdateCustomCamera sinf cosf s hf).camera.target.z -
        (UpdateCustomCamera sinf cosf s hf).camera.position.z) / 500
    rw [htz, hfz]
    show _ = -(25 * cosf sf.cameraAngle.x) / 500
    rw [hyaw]
    ring
  · rw [hfx, hfz]
    linear_combination (1 / 400) * hp
  · rw [hfx, hfz, hrx, hrz]
    ring
  · rw [hrx, hrz]
    linear_combination (1 / 400) * hp

/-- C15, instance: real sine and cosine; the state reached from the camera at eye height
on the origin by moving the pointer to `(-1000, 0)` (yaw `3`); then the pointer at rest
with only `W` down, against only `D` down. -/
theorem C15_forward_toward_target_witness :
    (∀ a : ℝ, Real.sin a ^ 2 + Real.cos a ^ 2 = 1) ∧
    (keysHeld (⟨-1000, 0⟩ : Vector2 ℝ) [87]).mousePosition.x =
      (UpdateCustomCamera Real.sin Real.cos atOrigin (keysHeld ⟨-1000, 0⟩ [])).previousMousePosition.x ∧
    direction (keysHeld (⟨-1000, 0⟩ : Vector2 ℝ) [87]) .MOVE_FRONT = true ∧
    direction (keysHeld (⟨-1000, 0⟩ : Vector2 ℝ) [68]) .MOVE_RIGHT = true ∧
    (let sf := UpdateCustomCamera Real.sin Real.cos (UpdateCustomCamera Real.sin Real.cos atOrigin (keysHeld ⟨-1000, 0⟩ [])) (keysHeld ⟨-1000, 0⟩ [87])
     let sr := UpdateCustomCamera Real.sin Real.cos (UpdateCustomCamera Real.sin Real.cos atOrigin (keysHeld ⟨-1000, 0⟩ [])) (keysHeld ⟨-1000, 0⟩ [68])
     sf.camera.position.x - (UpdateCustomCamera Real.sin Real.cos atOrigin (keysHeld ⟨-1000, 0⟩ [])).camera.position.x =
       (sf.camera.target.x - sf.camera.position.x) / 500 ∧
     sf.camera.position.z - (UpdateCustomCamera Real.sin Real.cos atOrigin (keysHeld ⟨-1000, 0⟩ [])).camera.position.z =
       (sf.camera.target.z - sf.camera.position.z) / 500 ∧
     (sf.camera.position.x - (UpdateCustomCamera Real.sin Real.cos atOrigin (keysHeld ⟨-1000, 0⟩ [])).camera.position.x) ^ 2 +
       (sf.camera.position.z - (UpdateCustomCamera Real.sin Real.cos atOrigin (keysHeld ⟨-1000, 0⟩ [])).camera.position.z) ^ 2 = (1 / 20) ^ 2 ∧
     (sf.camera.position.x - (UpdateCustomCamera Real.sin Real.cos atOrigin (keysHeld ⟨-1000, 0⟩ [])).camera.position.x) *
         (sr.camera.position.x - (UpdateCustomCamera Real.sin Real.cos atOrigin (keysHeld ⟨-1000, 0⟩ [])).camera.position.x) +
       (sf.camera.position.z - (UpdateCustomCamera Real.sin Real.cos atOrigin (keysHeld ⟨-1000, 0⟩ [])).camera.position.z) *
         (sr.camera.position.z - (UpdateCustomCamera Real.sin Real.cos atOrigin (keysHeld ⟨-1000, 0⟩ [])).camera.position.z) = 0 ∧
     (sr.camera.position.x - (UpdateCustomCamera Real.sin Real.cos atOrigin (keysHeld ⟨-1000, 0⟩ [])).camera.position.x) ^ 2 +
       (sr.camera.position.z - (UpdateCustomCamera Real.sin Real.cos atOrigin (keysHeld ⟨-1000, 0⟩ [])).camera.position.z) ^ 2 = (1 / 20) ^ 2) :=
  have hfront : direction (keysHeld (⟨-1000, 0⟩ : Vector2 ℝ) [87]) .MOVE_FRONT = true := by
    decide
  have hfothers : ∀ m : CameraMove, m ≠ .MOVE_FRONT →
      direction (keysHeld (⟨-1000, 0⟩ : Vector2 ℝ) [87]) m = false := by
    intro m hm
    cases m
    · exact absurd rfl hm
    all_goals decide
  have hright : direction (keysHeld (⟨-1000, 0⟩ : Vector2 ℝ) [68]) .MOVE_RIGHT = true := by
    decide
  have hrothers : ∀ m : CameraMove, m ≠ .MOVE_RIGHT →
      direction (keysHeld (⟨-1000, 0⟩ : Vector2 ℝ) [68]) m = false := by
    intro m hm
    cases m
    case MOVE_RIGHT => exact absurd rfl hm
    all_goals decide
  ⟨Real.sin_sq_add_cos_sq, rfl, hfront, hright,
   C15_forward_toward_target Real.sin Real.cos Real.sin_sq_add_cos_sq (UpdateCustomCamera Real.sin Real.cos atOrigin (keysHeld ⟨-1000, 0⟩ []))
     (keysHeld ⟨-1000, 0⟩ [87]) (keysHeld ⟨-1000, 0⟩ [68]) rfl hfront hfothers hright hrothers⟩

end Model

end CustomCamera
